import Mathlib

/-!
Verification of the pycoreutils command registry and dispatcher
(`pycoreutils/__init__.py`).

The registry is the module-level list `_cmds`, populated by the
`@addcommand` decorator; `@onlyunix` marks a command as unusable on
Windows.  The dispatcher is `run(argv, width=78)`: it resolves a command
name from `argv`, prints global help, rejects unknown or
platform-restricted commands, invokes the handler with the remaining
arguments joined into one string, and translates `IOError`/`OSError`
into a formatted message plus `sys.exit(err.errno)`.

We embed a Python function object registered as a command as a `Cmd`:
its `__name__`, its `_onlyunix` attribute, and its behaviour when called
with the argument string.  Handler bodies themselves are external
collaborators; their observable outcome is one of: return normally,
raise `SystemExit` (`sys.exit`), or raise an `IOError`/`OSError`
carrying `filename`, `errno` and `strerror`.  Output is modelled as the
list of `print` payloads, split into stdout and stderr.  An uncaught
exception inside the dispatcher itself (the string `raise` in
`checkcommand`) is modelled as `Except.error`.
-/

namespace Pycoreutils

/-- `__version__ = '0.0.5a'` in the source. -/
def versionString : String := "0.0.5a"

/-- `__license__` in the source (the MIT license text printed by `printlicense`). -/
def licenseText : String :=
  "Copyright (c) 2009, 2010, 2011 Hans van Leeuwen\n\nPermission is hereby granted, free of charge, to any person obtaining a\ncopy of this software and associated documentation files (the \"Software\"),\nto deal in the Software without restriction, including without limitation\nthe rights to use, copy, modify, merge, publish, distribute, sublicense,\nand/or sell copies of the Software, and to permit persons to whom the\nSoftware is furnished to do so, subject to the following conditions:\n\nThe above copyright notice and this permission notice shall be included\nin all copies or substantial portions of the Software.\n\nTHE SOFTWARE IS PROVIDED \"AS IS\", WITHOUT WARRANTY OF ANY KIND, EXPRESS OR\nIMPLIED, INCLUDING BUT NOT LIMITED TO THE WARRANTIES OF MERCHANTABILITY,\nFITNESS FOR A PARTICULAR PURPOSE AND NONINFRINGEMENT. IN NO EVENT SHALL\nTHE AUTHORS OR COPYRIGHT HOLDERS BE LIABLE FOR ANY CLAIM, DAMAGES OR\nOTHER LIABILITY, WHETHER IN AN ACTION OF CONTRACT, TORT OR OTHERWISE,\nARISING FROM, OUT OF OR IN CONNECTION WITH THE SOFTWARE OR THE USE OR\nOTHER DEALINGS IN THE SOFTWARE.\n"

/-- Observable outcome of calling a handler `cmd(argstr)`: it returns
normally (Python discards the return value `retval`), raises
`SystemExit code` via `sys.exit`, or raises an `IOError`/`OSError`
carrying `filename`, `errno` and `strerror`.  `out` is whatever the
handler printed to stdout before finishing. -/
inductive HandlerOutcome where
  | ret (out : List String) (retval : Int)
  | sysExit (out : List String) (code : Int)
  | ioError (out : List String) (filename : String) (errno : Int) (strerror : String)

/-- A registered command: the function object's `__name__`, its
`_onlyunix` attribute (set by the `@onlyunix` decorator, absent
otherwise), and its behaviour on a given argument string. -/
structure Cmd where
  name : String
  onlyunix : Bool
  behavior : String → HandlerOutcome

/-- `addcommand(f)`: appends `f` to the module-level list `_cmds`
(state-passing rendition of `_cmds.append(f)`). -/
def addcommand (cmds : List Cmd) (f : Cmd) : List Cmd := cmds ++ [f]

/-- `checkcommand(command)`: filters `_cmds` by `__name__`; returns
`False` (here `none`) when no match, the unique match when exactly one,
and raises when several functions share the name.  (In Python the raise
is a *string* raise, itself a `TypeError` on modern interpreters; either
way `checkcommand` terminates exceptionally, modelled as
`Except.error`.) -/
def checkcommand (cmds : List Cmd) (command : String) : Except String (Option Cmd) :=
  match cmds.filter (fun cmd => cmd.name == command) with
  | [] => .ok none
  | [c] => .ok (some c)
  | _ => .error "Command `{0}\x27 has multiple functions associated with it!"

/-- `listcommands()`: the `__name__` of every entry of `_cmds`, in
registration order. -/
def listcommands (cmds : List Cmd) : List String := cmds.map (fun cmd => cmd.name)

/-- Characters after the last `'/'` of a character list. -/
def afterLastSlash (l : List Char) : List Char :=
  l.foldl (fun acc c => if c = '/' then [] else acc ++ [c]) []

/-- `os.path.basename` on POSIX: the part after the last slash. -/
def basename (p : String) : String := String.mk (afterLastSlash p.data)

/-- Python `str.center(width)`: returns `s` unchanged when it does not
fit, otherwise pads with spaces, the extra space going right except for
the CPython parity rule `left = marg / 2 + (marg & width & 1)`. -/
def pyCenter (s : String) (width : Nat) : String :=
  if width ≤ s.length then s
  else
    let marg := width - s.length
    let left := marg / 2 + (marg &&& width &&& 1)
    String.mk (List.replicate left ' ') ++ s ++ String.mk (List.replicate (marg - left) ' ')

/-- The four lines of ASCII art in `showbanner`. -/
def bannerLines : List String :=
  [" ____  _  _  ___  _____  ____  ____  __  __  ____  ____  __    ___ ",
   "(  _ \\( \\/ )/ __)(  _  )(  _ \\( ___)(  )(  )(_  _)(_  _)(  )  / __)",
   " )___/ \\  /( (__  )(_)(  )   / )__)  )(__)(   )(   _)(_  )(__ \\__ \\",
   "(__)   (__) \\___)(_____)(_)\\_)(____)(______) (__) (____)(____)(___/"]

/-- `showbanner(width)`: the banner, centered when `width` is truthy
(Python: `if width`, so width 0 takes the uncentered branch). -/
def showbanner (width : Nat) : String :=
  let subtext := "-= PyCoreutils version " ++ versionString ++ " =-"
  if width ≠ 0 then
    (bannerLines.map (fun line => pyCenter line width ++ "\n")).foldl (· ++ ·) ""
      ++ "\n" ++ pyCenter subtext width ++ "\n"
  else
    String.intercalate "\n" bannerLines ++ "\n\n" ++ pyCenter subtext 68 ++ "\n"

/-- Greedy line packing: `wrapGo width ws cur` extends the current line
`cur` with the next word when it still fits in `width` columns
(counting one joining space), otherwise emits `cur` and starts a fresh
line. -/
def wrapGo (width : Nat) : List String → String → List String
  | [], cur => [cur]
  | w :: ws, cur =>
    if cur.length + 1 + w.length ≤ width then wrapGo width ws (cur ++ " " ++ w)
    else cur :: wrapGo width ws w

/-- Split a character list into the space-separated chunks; `cur` holds
the (reversed) characters of the chunk being read. -/
def splitSpacesAux : List Char → List Char → List String
  | [], cur => [String.mk cur.reverse]
  | c :: cs, cur =>
    if c = ' ' then String.mk cur.reverse :: splitSpacesAux cs []
    else splitSpacesAux cs (c :: cur)

/-- Split a string on single spaces (what `text.split()` does to the
space-joined texts wrapped here). -/
def splitSpaces (s : String) : List String := splitSpacesAux s.data []

/-- `textwrap.wrap(text, width)` as used by `run`: split on spaces and
pack words greedily.  (Python's `textwrap` agrees with this greedy
packing whenever every word fits within `width`, which holds for the
comma-separated command names wrapped here.) -/
def textwrapWrap (text : String) (width : Nat) : List String :=
  match (splitSpaces text).filter (fun w => w ≠ "") with
  | [] => []
  | w :: ws => wrapGo width ws w

/-- The sequence of `print` payloads of the global-help branch of `run`:
banner, usage line, `Available commands:`, the wrapped comma-separated
command list, and the closing hint. -/
def helpLines (width : Nat) (cmds : List Cmd) (requestcmd : String) : List String :=
  [showbanner width,
   "Usage: " ++ requestcmd ++ " COMMAND [ OPTIONS ... ]\n",
   "Available commands:"]
  ++ textwrapWrap (String.intercalate ", " (listcommands cmds)) width
  ++ ["\nUse `" ++ requestcmd ++ " COMMAND --help\x27 for help"]

/-- Observable result of one `run` invocation that did not itself raise:
the `print` payloads sent to stdout and stderr, the `sys.exit` argument
(`none` when `run` returned normally, in which case the interpreter
exits 0), and the list of handler invocations `(command name, argstr)`
performed. -/
structure ProcResult where
  stdout : List String
  stderr : List String
  exit : Option Int
  invoked : List (String × String)
  deriving DecidableEq

/-- Result of the help branch: help text on stdout, `sys.exit(1)`, no
handler invoked. -/
def helpProc (width : Nat) (cmds : List Cmd) (requestcmd : String) : ProcResult :=
  { stdout := helpLines width cmds requestcmd, stderr := [], exit := some 1, invoked := [] }

/-- Result of the unknown-command branch: `run` prints
`Command <argv0> not supported.` (note: `argv[0]`, not the basename
used for the lookup) plus a hint, then `sys.exit(1)`. -/
def unknownResult (argv0 : String) : ProcResult :=
  { stdout := ["Command " ++ argv0 ++ " not supported.",
               "Use pycoreutils.py --help for a list of valid commands."],
    stderr := [], exit := some 1, invoked := [] }

/-- Result of the platform-restriction branch: `run` prints
`Command <argv0> does not work on Windows` and exits 1. -/
def windowsResult (argv0 : String) : ProcResult :=
  { stdout := ["Command " ++ argv0 ++ " does not work on Windows"],
    stderr := [], exit := some 1, invoked := [] }

/-- The tail of `run`: `cmd(argstr)` inside
`try/except (IOError, OSError)`.  A normal return leaves `run` (return
value discarded); `SystemExit` propagates; an I/O failure prints
`argv0: filename: strerror` to stderr and exits with `err.errno`. -/
def invokeResult (requestcmd argv0 argstr : String) (h : HandlerOutcome) : ProcResult :=
  match h with
  | .ret out _ =>
    { stdout := out, stderr := [], exit := none, invoked := [(requestcmd, argstr)] }
  | .sysExit out code =>
    { stdout := out, stderr := [], exit := some code, invoked := [(requestcmd, argstr)] }
  | .ioError out f e s =>
    { stdout := out, stderr := [argv0 ++ ": " ++ f ++ ": " ++ s],
      exit := some e, invoked := [(requestcmd, argstr)] }

/-- The part of `run` after the help branch: look `requestcmd` up, hit
the unknown-command or Windows branch, or invoke the handler on
`' '.join(argv[1:])`.  `argv0` is `argv[0]` as `run` sees it at that
point (used verbatim in messages); `args` is `argv[1:]`. -/
def dispatch (cmds : List Cmd) (requestcmd argv0 : String) (args : List String)
    (plat : String) : Except String ProcResult :=
  match checkcommand cmds requestcmd with
  | .error e => .error e
  | .ok none => .ok (unknownResult argv0)
  | .ok (some c) =>
    if c.onlyunix && plat == "Windows" then .ok (windowsResult argv0)
    else
      let argstr := String.intercalate " " args
      .ok (invokeResult requestcmd argv0 argstr (c.behavior argstr))

/-- `run(argv, width)`: `requestcmd = os.path.basename(argv[0])`; when
that is `coreutils.py` or `pycoreutils.py`, an empty tail or a leading
help flag prints global help and exits 1, otherwise `argv.pop(0)` makes
`argv[1]` the command name; then lookup, platform check and handler
invocation.  `plat` stands for `platform.system()`. -/
def run (cmds : List Cmd) (width : Nat) (argv : List String) (plat : String) :
    Except String ProcResult :=
  match argv with
  | [] => .error "IndexError: list index out of range"
  | argv0 :: rest =>
    let requestcmd := basename argv0
    if requestcmd == "coreutils.py" || requestcmd == "pycoreutils.py" then
      match rest with
      | [] => .ok (helpProc width cmds requestcmd)
      | a1 :: rest2 =>
        if a1 == "-h" || a1 == "-?" || a1 == "--help" then
          .ok (helpProc width cmds requestcmd)
        else dispatch cmds a1 a1 rest2 plat
    else dispatch cmds requestcmd argv0 rest plat

/-- Exit status of the whole process when the dispatcher did not crash:
`sys.exit`'s argument if one was raised, else 0 (the `if __name__ ==
'__main__': run()` epilogue falls off the end of the script). -/
def runExit (x : Except String ProcResult) : Option Int :=
  match x with
  | .ok r => some (r.exit.getD 0)
  | .error _ => none

/-- The `(name, _onlyunix)` pairs of every `@addcommand` definition in
`pycoreutils/__init__.py`, in the order they appear in the file (the
order the decorators execute, hence the registration order of `_cmds`).
`chown`, `id`, `ln`, `tee` and `whoami` also carry `@onlyunix`. -/
def registrySpec : List (String × Bool) :=
  [("arch", false), ("base64", false), ("basename", false), ("bunzip2", false),
   ("bzip2", false), ("cat", false), ("cd", false), ("chown", true),
   ("chroot", false), ("dirname", false), ("env", false), ("false", false),
   ("gunzip", false), ("gzip", false), ("httpd", false), ("id", true),
   ("kill", false), ("ln", true), ("logger", false), ("ls", false),
   ("md5sum", false), ("mkdir", false), ("mktemp", false), ("mv", false),
   ("pwd", false), ("rm", false), ("rmdir", false), ("sendmail", false),
   ("seq", false), ("sha1sum", false), ("sha224sum", false), ("sha256sum", false),
   ("sha384sum", false), ("sha512sum", false), ("shred", false), ("shuf", false),
   ("smtpd", false), ("sleep", false), ("sort", false), ("tee", true),
   ("touch", false), ("uname", false), ("wget", false), ("whoami", true),
   ("yes", false), ("zip", false)]

/-- The registry `_cmds` as populated at import time: the 46 commands in
registration order.  The handler bodies are out-of-scope external
collaborators (spec section 1); the properties proved about this
concrete registry (help text, lookup) never invoke a handler, so the
placeholder behaviour is never reached. -/
def realCmds : List Cmd :=
  registrySpec.map (fun p => { name := p.1, onlyunix := p.2, behavior := fun _ => .ret [] 0 })

/-! ## The shared option-parser constructor (`parseoptions`) -/

/-- Action attached to an option in our optparse model:
`licenseCallback` is `printlicense` (print `__license__`, `sys.exit(0)`);
`helpAction`/`versionAction` are the built-in `--help`/`--version`
behaviours optparse itself installs (print library-formatted text, exit
0); `store` covers the per-command value-free options, which assign and
continue. -/
inductive OptAction where
  | licenseCallback
  | helpAction
  | versionAction
  | store
  deriving DecidableEq

/-- One registered option: its flag strings and its action. -/
structure Opt where
  flags : List String
  action : OptAction
  deriving DecidableEq

/-- `printlicense(...)`: prints `__license__` and calls `sys.exit(0)`;
rendered as (printed payloads, exit code). -/
def printlicense : List String × Int := ([licenseText], 0)

/-- `parseoptions()`: `optparse.OptionParser(version=__version__)` —
which installs `-h`, `--help` and `--version` — followed by
`add_option("--license", action="callback", callback=printlicense)`. -/
def parseoptions : List Opt :=
  [{ flags := ["-h", "--help"], action := .helpAction },
   { flags := ["--version"], action := .versionAction },
   { flags := ["--license"], action := .licenseCallback }]

/-- Stands for the help text optparse generates from the option table;
its exact content is owned by the `optparse` library, not this
repository, and no claim depends on it — only on the exit behaviour. -/
def optparseHelpText (opts : List Opt) : String :=
  "Options: " ++ String.intercalate ", " (opts.map (fun o => String.intercalate "/" o.flags))

/-- Outcome of `parser.parse_args(tokens)`: the process exited (via a
callback, `--help`, or `--version`), optparse reported an unrecognized
option (it then prints usage plus `no such option` and exits 2), or
parsing finished with the positional arguments. -/
inductive ParseOutcome where
  | exited (out : List String) (code : Int)
  | errored (badopt : String)
  | parsed (args : List String)
  deriving DecidableEq

/-- `t.startswith('-')`: whether the token's first character is a dash. -/
def startsDash (t : String) : Bool :=
  match t.data with
  | [] => false
  | c :: _ => c == '-'

/-- `parse_args` over a token list, for the flag-style (value-free)
option tables pycoreutils builds on top of `parseoptions()`: options and
positionals may be interspersed; `--` ends option processing; a token
starting with `-` is looked up in the option table and its action runs
when found; anything else is a positional. -/
def parse_args (opts : List Opt) : List String → ParseOutcome
  | [] => .parsed []
  | t :: ts =>
    if t == "--" then .parsed ts
    else if startsDash t && t != "-" then
      match opts.find? (fun o => o.flags.contains t) with
      | some o =>
        match o.action with
        | .licenseCallback => .exited printlicense.1 printlicense.2
        | .helpAction => .exited [optparseHelpText opts] 0
        | .versionAction => .exited [versionString] 0
        | .store => parse_args opts ts
      | none => .errored t
    else
      match parse_args opts ts with
      | .parsed args => .parsed (t :: args)
      | r => r

/-- Lexicographic comparison of character lists by code point
(Python's `<=` on `str`). -/
def charListLe : List Char → List Char → Bool
  | [], _ => true
  | _ :: _, [] => false
  | a :: as, b :: bs =>
    if a.toNat < b.toNat then true
    else if b.toNat < a.toNat then false
    else charListLe as bs

/-- `s <= t` on strings, by code point. -/
def strLe (s t : String) : Bool := charListLe s.data t.data

/-- Insert a string into an already sorted list (ascending). -/
def insertSorted (s : String) : List String → List String
  | [] => [s]
  | t :: ts => if strLe s t then s :: t :: ts else t :: insertSorted s ts

/-- Insertion sort on strings, used only to state what a *sorted*
command list would look like. -/
def sortStrings (l : List String) : List String := l.foldr insertSorted []

/-- Modelled from the spec's words, for a refinement comparison only:
the global help text as claim C5 describes it, i.e. with the
comma-separated command list *sorted* before wrapping.  The source
(`run` via `listcommands`) uses registration order instead. -/
def helpLinesSpecSorted (width : Nat) (cmds : List Cmd) (requestcmd : String) : List String :=
  [showbanner width,
   "Usage: " ++ requestcmd ++ " COMMAND [ OPTIONS ... ]\n",
   "Available commands:"]
  ++ textwrapWrap (String.intercalate ", " (sortStrings (listcommands cmds))) width
  ++ ["\nUse `" ++ requestcmd ++ " COMMAND --help\x27 for help"]

/-! ## Unfolding lemmas for `run` and `dispatch` -/

/-- `run` under the dispatcher-binary name: after the `argv.pop(0)`,
`argv[1]` is the requested command unless it is a help flag. -/
theorem run_binary_step (cmds : List Cmd) (w : Nat) (name : String) (rest : List String)
    (plat : String) :
    run cmds w ("pycoreutils.py" :: name :: rest) plat =
      if name == "-h" || name == "-?" || name == "--help" then
        .ok (helpProc w cmds "pycoreutils.py")
      else dispatch cmds name name rest plat := by rfl

/-- `run` under the dispatcher-binary name with a non-help first
argument goes straight to lookup and dispatch. -/
theorem run_binary_dispatch (cmds : List Cmd) (w : Nat) (name : String) (rest : List String)
    (plat : String) (h1 : name ≠ "-h") (h2 : name ≠ "-?") (h3 : name ≠ "--help") :
    run cmds w ("pycoreutils.py" :: name :: rest) plat = dispatch cmds name name rest plat := by
  rw [run_binary_step]
  simp [h1, h2, h3]

/-- `run` under any program name whose basename is not one of the two
dispatcher names (multi-call style) never takes the help branch: it
dispatches on `basename argv[0]`, passing all of `argv[1:]` through. -/
theorem run_symlink_dispatch (cmds : List Cmd) (w : Nat) (p : String) (rest : List String)
    (plat : String) (h1 : basename p ≠ "coreutils.py") (h2 : basename p ≠ "pycoreutils.py") :
    run cmds w (p :: rest) plat = dispatch cmds (basename p) p rest plat := by
  have hcond : (basename p == "coreutils.py" || basename p == "pycoreutils.py") = false := by
    simp [h1, h2]
  simp [run, hcond]

/-- Dispatch when the lookup finds a unique entry and the platform
check passes: the handler is called on `' '.join(argv[1:])`. -/
theorem dispatch_ok_some (cmds : List Cmd) (n a0 : String) (args : List String)
    (plat : String) (c : Cmd) (hc : checkcommand cmds n = .ok (some c))
    (hw : (c.onlyunix && plat == "Windows") = false) :
    dispatch cmds n a0 args plat =
      .ok (invokeResult n a0 (String.intercalate " " args)
            (c.behavior (String.intercalate " " args))) := by
  simp [dispatch, hc, hw]

/-- Dispatch when the lookup finds nothing. -/
theorem dispatch_ok_none (cmds : List Cmd) (n a0 : String) (args : List String)
    (plat : String) (hc : checkcommand cmds n = .ok none) :
    dispatch cmds n a0 args plat = .ok (unknownResult a0) := by
  simp [dispatch, hc]

/-- Dispatch of a platform-restricted command on Windows. -/
theorem dispatch_windows_block (cmds : List Cmd) (n a0 : String) (args : List String)
    (c : Cmd) (hc : checkcommand cmds n = .ok (some c)) (hu : c.onlyunix = true) :
    dispatch cmds n a0 args "Windows" = .ok (windowsResult a0) := by
  simp [dispatch, hc, hu]

/-- Dispatch propagates a `checkcommand` exception. -/
theorem dispatch_error (cmds : List Cmd) (n a0 : String) (args : List String)
    (plat : String) (e : String) (hc : checkcommand cmds n = .error e) :
    dispatch cmds n a0 args plat = .error e := by
  simp [dispatch, hc]

/-- Whatever the handler does, `invokeResult` records exactly one
invocation, of the looked-up command with the joined arguments. -/
theorem invokeResult_invoked (r a0 s : String) (h : HandlerOutcome) :
    (invokeResult r a0 s h).invoked = [(r, s)] := by
  cases h <;> rfl

/-- In `listcommands`, each name occurs once per registered entry
carrying it: the count of `n` equals the number of entries whose
`__name__` is `n`. -/
theorem count_listcommands (cmds : List Cmd) (n : String) :
    (listcommands cmds).count n = (cmds.filter (fun d => d.name == n)).length := by
  induction cmds with
  | nil => rfl
  | cons d ds ih =>
    simp only [listcommands, List.map_cons, List.count_cons, List.filter_cons] at ih ⊢
    by_cases hd : (d.name == n) = true
    · simp [hd, ih]
    · simp [hd, ih]

/-! ## Claims -/

/-- C2: registering two commands under different names and then looking
each name up with `checkcommand` returns the matching registered entry,
while looking up any name never registered returns the not-found result
(`False` in the source, `none` here). -/
theorem checkcommand_two_distinct (c1 c2 : Cmd) (h : c1.name ≠ c2.name) :
    checkcommand (addcommand (addcommand [] c1) c2) c1.name = .ok (some c1) ∧
    checkcommand (addcommand (addcommand [] c1) c2) c2.name = .ok (some c2) ∧
    ∀ n, n ≠ c1.name → n ≠ c2.name →
      checkcommand (addcommand (addcommand [] c1) c2) n = .ok none := by
  have h21 : (c2.name == c1.name) = false := beq_eq_false_iff_ne.mpr (fun e => h e.symm)
  refine ⟨?_, ?_, fun n hn1 hn2 => ?_⟩
  · simp [checkcommand, addcommand, List.filter, h21]
  · simp [checkcommand, addcommand, List.filter, beq_eq_false_iff_ne.mpr h]
  · simp [checkcommand, addcommand, List.filter,
      beq_eq_false_iff_ne.mpr (Ne.symm hn1), beq_eq_false_iff_ne.mpr (Ne.symm hn2)]

/-- Witness for C2 at a concrete two-command registry. -/
theorem checkcommand_two_distinct_witness :
    checkcommand (addcommand (addcommand [] (Cmd.mk "aa" false (fun _ => HandlerOutcome.ret [] 0)))
        (Cmd.mk "bb" false (fun _ => HandlerOutcome.ret [] 0))) "aa"
      = .ok (some (Cmd.mk "aa" false (fun _ => HandlerOutcome.ret [] 0))) ∧
    checkcommand (addcommand (addcommand [] (Cmd.mk "aa" false (fun _ => HandlerOutcome.ret [] 0)))
        (Cmd.mk "bb" false (fun _ => HandlerOutcome.ret [] 0))) "bb"
      = .ok (some (Cmd.mk "bb" false (fun _ => HandlerOutcome.ret [] 0))) ∧
    checkcommand (addcommand (addcommand [] (Cmd.mk "aa" false (fun _ => HandlerOutcome.ret [] 0)))
        (Cmd.mk "bb" false (fun _ => HandlerOutcome.ret [] 0))) "cc" = .ok none := by
  obtain ⟨h1, h2, h3⟩ := checkcommand_two_distinct
    (Cmd.mk "aa" false (fun _ => HandlerOutcome.ret [] 0))
    (Cmd.mk "bb" false (fun _ => HandlerOutcome.ret [] 0)) (by decide)
  exact ⟨h1, h2, h3 "cc" (by decide) (by decide)⟩

/-- C7 counterexample: registering the same name twice is neither
rejected nor last-wins — both entries stay in `_cmds`, and
`listcommands` returns the name twice, not exactly once. -/
theorem listcommands_duplicate_counterexample :
    (listcommands (addcommand (addcommand []
        (Cmd.mk "foo" false (fun _ => HandlerOutcome.ret [] 0)))
        (Cmd.mk "foo" false (fun _ => HandlerOutcome.ret [] 1)))).count "foo" = 2 ∧
    listcommands (addcommand (addcommand []
        (Cmd.mk "foo" false (fun _ => HandlerOutcome.ret [] 0)))
        (Cmd.mk "foo" false (fun _ => HandlerOutcome.ret [] 1))) = ["foo", "foo"] := by
  exact ⟨rfl, rfl⟩

/-- C7 (amended): registration never rejects or overwrites —
`addcommand` appends unconditionally, `listcommands` lists one name per
registered entry in registration order, so a name registered k times is
listed k times; uniqueness is only checked lazily at lookup. -/
theorem addcommand_keeps_duplicates (cmds : List Cmd) (c : Cmd) :
    addcommand cmds c = cmds ++ [c] ∧
    listcommands (addcommand cmds c) = listcommands cmds ++ [c.name] ∧
    ∀ n, (listcommands cmds).count n = (cmds.filter (fun d => d.name == n)).length := by
  exact ⟨rfl, by simp [addcommand, listcommands], fun n => count_listcommands cmds n⟩

/-- C9: a command name registered more than once makes `checkcommand`
raise (rather than answer), so such a name is never dispatchable: `run`
on it terminates with an uncaught exception before any handler runs. -/
theorem checkcommand_duplicate_raises (cmds : List Cmd) (n : String)
    (h : 2 ≤ (cmds.filter (fun c => c.name == n)).length) :
    (∃ e, checkcommand cmds n = .error e) ∧
    (n ≠ "-h" → n ≠ "-?" → n ≠ "--help" →
      ∀ rest plat, ∃ e, run cmds 78 ("pycoreutils.py" :: n :: rest) plat = .error e) := by
  have hcc : ∃ e, checkcommand cmds n = .error e := by
    rcases hl : cmds.filter (fun c => c.name == n) with _ | ⟨a, _ | ⟨b, l⟩⟩
    · rw [hl] at h; exact absurd h (by simp)
    · rw [hl] at h; exact absurd h (by simp)
    · exact ⟨"Command `{0}\x27 has multiple functions associated with it!",
        by simp [checkcommand, hl]⟩
  obtain ⟨e, he⟩ := hcc
  refine ⟨⟨e, he⟩, fun h1 h2 h3 rest plat => ⟨e, ?_⟩⟩
  rw [run_binary_dispatch cmds 78 n rest plat h1 h2 h3]
  exact dispatch_error cmds n n rest plat e he

/-- Witness for C9 at a registry holding two functions named `foo`. -/
theorem checkcommand_duplicate_raises_witness :
    (∃ e, checkcommand [Cmd.mk "foo" false (fun _ => HandlerOutcome.ret [] 0),
                        Cmd.mk "foo" false (fun _ => HandlerOutcome.ret [] 1)] "foo" = .error e) ∧
    (∃ e, run [Cmd.mk "foo" false (fun _ => HandlerOutcome.ret [] 0),
               Cmd.mk "foo" false (fun _ => HandlerOutcome.ret [] 1)] 78
          ["pycoreutils.py", "foo"] "Linux" = .error e) := by
  obtain ⟨a, b⟩ := checkcommand_duplicate_raises
    [Cmd.mk "foo" false (fun _ => HandlerOutcome.ret [] 0),
     Cmd.mk "foo" false (fun _ => HandlerOutcome.ret [] 1)] "foo" (by decide)
  exact ⟨a, b (by decide) (by decide) (by decide) [] "Linux"⟩

/-- C8: for any command whose option table extends `parseoptions()`,
parsing an argument list that reaches the `--license` flag prints the
license text and exits 0 (via the `printlicense` callback). -/
theorem parse_args_license (extra : List Opt) (pre post : List String)
    (h : ∀ t ∈ pre, startsDash t = false) :
    parse_args (parseoptions ++ extra) (pre ++ "--license" :: post) =
      .exited [licenseText] 0 := by
  induction pre with
  | nil => rfl
  | cons t ts ih =>
    have ht : startsDash t = false := h t (List.mem_cons_self t ts)
    have hts : ∀ x ∈ ts, startsDash x = false := fun x hx => h x (List.mem_cons_of_mem t hx)
    have hne : (t == "--") = false := by
      rcases ht2 : t == "--" with _ | _
      · rfl
      · exact absurd (by rw [eq_of_beq ht2] at ht; exact ht) (by decide)
    have hrec := ih hts
    simp only [List.cons_append, parse_args, hne, ht, Bool.false_and]
    simp [List.append_eq, hrec]

/-- Witness for C8: `--license` alone, on the bare `parseoptions()`
parser. -/
theorem parse_args_license_witness :
    parse_args parseoptions ["--license"] = .exited [licenseText] 0 := by
  have h := parse_args_license [] [] [] (by simp)
  simpa using h

/-- C1: when a handler raises an I/O or OS failure carrying a filename,
an errno and a system message, `run` catches it, prints
`<command>: <path>: <system message>` (which contains the offending
path) to stderr, and exits with the OS-provided error number. -/
theorem run_io_failure (cmds : List Cmd) (name plat : String) (rest out : List String)
    (c : Cmd) (f s : String) (e : Int)
    (h1 : name ≠ "-h") (h2 : name ≠ "-?") (h3 : name ≠ "--help")
    (hc : checkcommand cmds name = .ok (some c))
    (hw : (c.onlyunix && plat == "Windows") = false)
    (hb : c.behavior (String.intercalate " " rest) = .ioError out f e s) :
    run cmds 78 ("pycoreutils.py" :: name :: rest) plat =
      .ok { stdout := out, stderr := [name ++ ": " ++ f ++ ": " ++ s],
            exit := some e, invoked := [(name, String.intercalate " " rest)] } ∧
    ∃ pre post, name ++ ": " ++ f ++ ": " ++ s = pre ++ (f ++ post) := by
  constructor
  · rw [run_binary_dispatch cmds 78 name rest plat h1 h2 h3,
      dispatch_ok_some cmds name name rest plat c hc hw, hb]
    rfl
  · exact ⟨name ++ ": ", ": " ++ s, by simp [String.append_assoc]⟩

/-- Witness for C1: a handler raising file-not-found (errno 2) for
`/no/such/file`; the message carries the path and the exit code is 2. -/
theorem run_io_failure_witness :
    run [Cmd.mk "fnf" false
          (fun _ => HandlerOutcome.ioError [] "/no/such/file" 2 "No such file or directory")] 78
        ["pycoreutils.py", "fnf"] "Linux" =
      .ok { stdout := [], stderr := ["fnf: /no/such/file: No such file or directory"],
            exit := some 2, invoked := [("fnf", "")] } ∧
    ∃ pre post,
      "fnf: /no/such/file: No such file or directory" = pre ++ ("/no/such/file" ++ post) := by
  obtain ⟨ha, hb⟩ := run_io_failure
    [Cmd.mk "fnf" false
      (fun _ => HandlerOutcome.ioError [] "/no/such/file" 2 "No such file or directory")]
    "fnf" "Linux" [] []
    (Cmd.mk "fnf" false
      (fun _ => HandlerOutcome.ioError [] "/no/such/file" 2 "No such file or directory"))
    "/no/such/file" "No such file or directory" 2
    (by decide) (by decide) (by decide) rfl rfl rfl
  exact ⟨ha, hb⟩

/-- C3 counterexample: under symlink-style invocation with a path,
`run` prints `Command <argv0> not supported.` with the *full path*,
not `Command <name> not supported.` with the looked-up name. -/
theorem run_unknown_message_counterexample :
    run [] 78 ["/usr/local/bin/nosuch"] "Linux" =
      .ok { stdout := ["Command /usr/local/bin/nosuch not supported.",
                       "Use pycoreutils.py --help for a list of valid commands."],
            stderr := [], exit := some 1, invoked := [] } ∧
    "Command /usr/local/bin/nosuch not supported." ≠ "Command nosuch not supported." :=
  ⟨by rfl, ne_of_beq_false (by rfl)⟩

/-- C3 (amended): dispatching an unregistered name prints
`Command <argv0> not supported.` — where `argv0` is the first remaining
argv element: the command name itself under dispatcher-binary
invocation, the full program path under symlink-style invocation — plus
a hint, exits 1, and never invokes any handler. -/
theorem run_unknown_command (cmds : List Cmd) (plat : String) :
    (∀ name rest, name ≠ "-h" → name ≠ "-?" → name ≠ "--help" →
        checkcommand cmds name = .ok none →
        run cmds 78 ("pycoreutils.py" :: name :: rest) plat = .ok (unknownResult name)) ∧
    (∀ p rest, basename p ≠ "coreutils.py" → basename p ≠ "pycoreutils.py" →
        checkcommand cmds (basename p) = .ok none →
        run cmds 78 (p :: rest) plat = .ok (unknownResult p)) ∧
    (∀ argv0, (unknownResult argv0).stdout =
        ["Command " ++ argv0 ++ " not supported.",
         "Use pycoreutils.py --help for a list of valid commands."] ∧
      (unknownResult argv0).exit = some 1 ∧ (unknownResult argv0).invoked = []) := by
  refine ⟨fun name rest h1 h2 h3 hc => ?_, fun p rest h1 h2 hc => ?_,
    fun argv0 => ⟨rfl, rfl, rfl⟩⟩
  · rw [run_binary_dispatch cmds 78 name rest plat h1 h2 h3]
    exact dispatch_ok_none cmds name name rest plat hc
  · rw [run_symlink_dispatch cmds 78 p rest plat h1 h2]
    exact dispatch_ok_none cmds (basename p) p rest plat hc

/-- Witness for the amended C3, in both invocation styles. -/
theorem run_unknown_command_witness :
    run [] 78 ["pycoreutils.py", "nosuch"] "Linux" = .ok (unknownResult "nosuch") ∧
    run [] 78 ["/usr/bin/nosuch"] "Linux" = .ok (unknownResult "/usr/bin/nosuch") := by
  obtain ⟨hbin, hsym, _⟩ := run_unknown_command [] "Linux"
  exact ⟨hbin "nosuch" [] (by decide) (by decide) (by decide) rfl,
         hsym "/usr/bin/nosuch" [] (by decide) (by decide) rfl⟩

/-- C4: a registered command marked `_onlyunix`, dispatched while
`platform.system()` is `Windows`, prints an error naming the command
and exits 1 without invoking the handler; on any other platform the
handler is invoked. -/
theorem run_platform_restricted (cmds : List Cmd) (name plat : String) (rest : List String)
    (c : Cmd) (h1 : name ≠ "-h") (h2 : name ≠ "-?") (h3 : name ≠ "--help")
    (hc : checkcommand cmds name = .ok (some c)) (hu : c.onlyunix = true) :
    (plat = "Windows" →
        run cmds 78 ("pycoreutils.py" :: name :: rest) plat = .ok (windowsResult name) ∧
        (windowsResult name).stdout = ["Command " ++ name ++ " does not work on Windows"] ∧
        (windowsResult name).exit = some 1 ∧ (windowsResult name).invoked = []) ∧
    (plat ≠ "Windows" →
        run cmds 78 ("pycoreutils.py" :: name :: rest) plat =
          .ok (invokeResult name name (String.intercalate " " rest)
                (c.behavior (String.intercalate " " rest))) ∧
        (invokeResult name name (String.intercalate " " rest)
            (c.behavior (String.intercalate " " rest))).invoked =
          [(name, String.intercalate " " rest)]) := by
  constructor
  · intro hp; subst hp
    refine ⟨?_, rfl, rfl, rfl⟩
    rw [run_binary_dispatch cmds 78 name rest "Windows" h1 h2 h3]
    exact dispatch_windows_block cmds name name rest c hc hu
  · intro hp
    have hw : (c.onlyunix && plat == "Windows") = false := by
      simp [hu, beq_eq_false_iff_ne.mpr hp]
    refine ⟨?_, invokeResult_invoked name name _ _⟩
    rw [run_binary_dispatch cmds 78 name rest plat h1 h2 h3]
    exact dispatch_ok_some cmds name name rest plat c hc hw

/-- Witness for C4: an `_onlyunix` command blocked on Windows and
invoked on Linux. -/
theorem run_platform_restricted_witness :
    run [Cmd.mk "id" true (fun _ => HandlerOutcome.sysExit [] 0)] 78
        ["pycoreutils.py", "id"] "Windows" = .ok (windowsResult "id") ∧
    run [Cmd.mk "id" true (fun _ => HandlerOutcome.sysExit [] 0)] 78
        ["pycoreutils.py", "id"] "Linux" =
      .ok { stdout := [], stderr := [], exit := some 0, invoked := [("id", "")] } := by
  have hW := (run_platform_restricted [Cmd.mk "id" true (fun _ => HandlerOutcome.sysExit [] 0)]
      "id" "Windows" [] (Cmd.mk "id" true (fun _ => HandlerOutcome.sysExit [] 0))
      (by decide) (by decide) (by decide) rfl rfl).1 rfl
  have hL := (run_platform_restricted [Cmd.mk "id" true (fun _ => HandlerOutcome.sysExit [] 0)]
      "id" "Linux" [] (Cmd.mk "id" true (fun _ => HandlerOutcome.sysExit [] 0))
      (by decide) (by decide) (by decide) rfl rfl).2 (by decide)
  exact ⟨hW.1, hL.1⟩

set_option maxRecDepth 1000000 in
/-- C5 counterexample: on the real registry, the help text `run` prints
lists the commands in registration order (`..., smtpd, sleep, ...`),
not sorted as the claim states — it differs from the spec-described
sorted variant. -/
theorem run_help_unsorted_counterexample :
    run realCmds 78 ["pycoreutils.py"] "Linux" = .ok (helpProc 78 realCmds "pycoreutils.py") ∧
    helpLines 78 realCmds "pycoreutils.py" ≠ helpLinesSpecSorted 78 realCmds "pycoreutils.py" :=
  ⟨rfl, ne_of_beq_false (by rfl)⟩

/-- C5 (amended): with no command name, or `-h`, `-?` or `--help`
first, `run` prints the banner, a usage line, `Available commands:`
followed by the comma-separated command list in *registration order*
wrapped at 78 columns, and a usage hint, then exits 1; the no-argument
and help-flag cases produce identical output. -/
theorem run_global_help (cmds : List Cmd) (plat : String) :
    run cmds 78 ["pycoreutils.py"] plat = .ok (helpProc 78 cmds "pycoreutils.py") ∧
    run cmds 78 ["pycoreutils.py", "--help"] plat = run cmds 78 ["pycoreutils.py"] plat ∧
    run cmds 78 ["pycoreutils.py", "-h"] plat = run cmds 78 ["pycoreutils.py"] plat ∧
    run cmds 78 ["pycoreutils.py", "-?"] plat = run cmds 78 ["pycoreutils.py"] plat ∧
    run cmds 78 ["coreutils.py"] plat = .ok (helpProc 78 cmds "coreutils.py") ∧
    helpProc 78 cmds "pycoreutils.py" =
      { stdout := [showbanner 78, "Usage: pycoreutils.py COMMAND [ OPTIONS ... ]\n",
                   "Available commands:"]
          ++ textwrapWrap (String.intercalate ", " (listcommands cmds)) 78
          ++ ["\nUse `pycoreutils.py COMMAND --help\x27 for help"],
        stderr := [], exit := some 1, invoked := [] } := by
  exact ⟨rfl, rfl, rfl, rfl, rfl, rfl⟩

/-- C6 counterexample: a handler that returns normally with value 5 does
*not* make the process exit 5 — `run` discards the return value and the
process exits 0. -/
theorem run_return_value_ignored :
    runExit (run [Cmd.mk "e5" false (fun _ => HandlerOutcome.ret ["5"] 5)] 78
      ["pycoreutils.py", "e5"] "Linux") = some 0 ∧
    (some 0 : Option Int) ≠ some 5 :=
  ⟨rfl, by decide⟩

/-- C6 (amended): exit status is 0 when the handler returns normally
(its return value is discarded), 1 on a usage/dispatch error, the OS
error number on an I/O failure, and handler-defined only via the
handler raising `SystemExit` itself, which propagates through `run`
unchanged. -/
theorem run_exit_code_contract (cmds : List Cmd) (name plat : String) (rest : List String)
    (c : Cmd) (h1 : name ≠ "-h") (h2 : name ≠ "-?") (h3 : name ≠ "--help")
    (hc : checkcommand cmds name = .ok (some c))
    (hw : (c.onlyunix && plat == "Windows") = false) :
    (∀ out v, c.behavior (String.intercalate " " rest) = .ret out v →
        runExit (run cmds 78 ("pycoreutils.py" :: name :: rest) plat) = some 0) ∧
    (∀ out code, c.behavior (String.intercalate " " rest) = .sysExit out code →
        runExit (run cmds 78 ("pycoreutils.py" :: name :: rest) plat) = some code) ∧
    (∀ out f e s, c.behavior (String.intercalate " " rest) = .ioError out f e s →
        runExit (run cmds 78 ("pycoreutils.py" :: name :: rest) plat) = some e) ∧
    (∀ m, m ≠ "-h" → m ≠ "-?" → m ≠ "--help" → checkcommand cmds m = .ok none →
        ∀ rest2, runExit (run cmds 78 ("pycoreutils.py" :: m :: rest2) plat) = some 1) ∧
    runExit (run cmds 78 ["pycoreutils.py"] plat) = some 1 := by
  have hrun := run_binary_dispatch cmds 78 name rest plat h1 h2 h3
  have hdisp := dispatch_ok_some cmds name name rest plat c hc hw
  refine ⟨fun out v hb => ?_, fun out code hb => ?_, fun out f e s hb => ?_,
          fun m hm1 hm2 hm3 hcm rest2 => ?_, rfl⟩
  · rw [hrun, hdisp, hb]; rfl
  · rw [hrun, hdisp, hb]; rfl
  · rw [hrun, hdisp, hb]; rfl
  · rw [run_binary_dispatch cmds 78 m rest2 plat hm1 hm2 hm3,
      dispatch_ok_none cmds m m rest2 plat hcm]
    rfl

/-- Witness for the amended C6: `sys.exit(7)` propagates as exit 7;
an unknown name exits 1; the help branch exits 1. -/
theorem run_exit_code_contract_witness :
    runExit (run [Cmd.mk "sx" false (fun _ => HandlerOutcome.sysExit [] 7)] 78
      ["pycoreutils.py", "sx"] "Linux") = some 7 ∧
    runExit (run [Cmd.mk "sx" false (fun _ => HandlerOutcome.sysExit [] 7)] 78
      ["pycoreutils.py", "nope"] "Linux") = some 1 ∧
    runExit (run [Cmd.mk "sx" false (fun _ => HandlerOutcome.sysExit [] 7)] 78
      ["pycoreutils.py"] "Linux") = some 1 := by
  obtain ⟨hret, hsys, hio, hunk, hhelp⟩ := run_exit_code_contract
    [Cmd.mk "sx" false (fun _ => HandlerOutcome.sysExit [] 7)] "sx" "Linux" []
    (Cmd.mk "sx" false (fun _ => HandlerOutcome.sysExit [] 7))
    (by decide) (by decide) (by decide) rfl rfl
  exact ⟨hsys [] 7 rfl, hunk "nope" (by decide) (by decide) (by decide) rfl [], hhelp⟩

/-- C10: the global-help branch is reachable only when the basename of
`argv[0]` is `coreutils.py` or `pycoreutils.py`; under any other
program name `run` goes straight to dispatch on the basename, so a
leading `-h` (or any first argument) is not consumed but lands in the
joined argument string the handler receives, and an unregistered
program name yields the unknown-command error. -/
theorem run_multicall_no_help (cmds : List Cmd) (p plat : String) (rest : List String)
    (h1 : basename p ≠ "coreutils.py") (h2 : basename p ≠ "pycoreutils.py") :
    run cmds 78 (p :: rest) plat = dispatch cmds (basename p) p rest plat ∧
    (∀ c, checkcommand cmds (basename p) = .ok (some c) →
        (c.onlyunix && plat == "Windows") = false →
        run cmds 78 (p :: rest) plat =
          .ok (invokeResult (basename p) p (String.intercalate " " rest)
                (c.behavior (String.intercalate " " rest)))) ∧
    (checkcommand cmds (basename p) = .ok none →
        run cmds 78 (p :: rest) plat = .ok (unknownResult p)) := by
  have hd := run_symlink_dispatch cmds 78 p rest plat h1 h2
  refine ⟨hd, fun c hc hw => ?_, fun hc => ?_⟩
  · rw [hd]; exact dispatch_ok_some cmds (basename p) p rest plat c hc hw
  · rw [hd]; exact dispatch_ok_none cmds (basename p) p rest plat hc

/-- Witness for C10: program name `tool`, first argument `-h` — the
handler is invoked with the joined string `-h x`, no help is printed. -/
theorem run_multicall_no_help_witness :
    run [Cmd.mk "tool" false (fun s => HandlerOutcome.sysExit [s] 3)] 78
        ["tool", "-h", "x"] "Linux" =
      .ok { stdout := ["-h x"], stderr := [], exit := some 3, invoked := [("tool", "-h x")] } := by
  have h := (run_multicall_no_help [Cmd.mk "tool" false (fun s => HandlerOutcome.sysExit [s] 3)]
      "tool" "Linux" ["-h", "x"] (by decide) (by decide)).2.1
      (Cmd.mk "tool" false (fun s => HandlerOutcome.sysExit [s] 3)) rfl rfl
  exact h

end Pycoreutils
